import Mathlib

/-!
# Verification of the SOL anomaly-alert bot's streaming detector

Shallow embedding of `src/main.py`: the stateful anomaly detector
(`AnomalyDetector.check`) and the reconnect/backoff discipline of `ws_loop`.

Numeric values (prices, volumes, timestamps, thresholds) are modelled as
exact rationals.  The only irrational operation in the source,
`math.sqrt` inside `_mean_std`, is eliminated by carrying the population
*variance* and performing the single comparison against the standard
deviation in squared form (see `zscoreGE`); this encodes exactly the
real-number predicate `(v - mean) / sqrt(var) >= thresh` the source tests.
-/

namespace SolBot

/-- The signal dictionary returned by `AnomalyDetector.check`:
`{"volume": bool, "price": bool, "merged": bool}`. -/
structure SignalSet where
  volume : Bool
  price : Bool
  merged : Bool
  deriving DecidableEq, Repr

/-- The all-false signal set returned on every early-out path. -/
def SignalSet.none : SignalSet := ⟨false, false, false⟩

/-- Number of flags set in a signal set. -/
def SignalSet.countTrue (r : SignalSet) : ℕ :=
  (cond r.volume 1 0) + (cond r.price 1 0) + (cond r.merged 1 0)

/-- The detector-relevant part of `Settings` (`Settings.load` in the source).
Window sizes are naturals: `deque(maxlen=n)` requires a nonnegative size. -/
structure Settings where
  volume_window : ℕ
  volume_zscore : ℚ
  minute_volume_min : ℚ
  price_window : ℕ
  price_pct_change : ℚ
  alert_cooldown_min : ℤ
  merge_signals_window : ℤ
  deriving Repr

/-- The fields of a Binance kline dict that `AnomalyDetector.check` reads:
`T` (close time, ms), `c` (close price), `v` (volume), `x` (is final). -/
structure Candle where
  T : ℤ
  c : ℚ
  v : ℚ
  x : Bool
  deriving DecidableEq, Repr

/-- The mutable state of an `AnomalyDetector` instance: the two bounded
deques, the three `last_alert_ts` entries (`defaultdict` keys `"volume"`,
`"price"`, `"merged"`, default `0.0`), and the de-dup minute marker. -/
structure DetectorState where
  volumes : List ℚ
  prices : List ℚ
  lastVolumeTs : ℚ
  lastPriceTs : ℚ
  lastMergedTs : ℚ
  lastMinuteTs : Option ℤ
  deriving DecidableEq, Repr

/-- `AnomalyDetector.__init__`: empty windows, all cooldown stamps 0,
no minute processed yet. -/
def DetectorState.init : DetectorState := ⟨[], [], 0, 0, 0, Option.none⟩

/-- `deque(maxlen := m).append v`: append on the right, evicting from the
left whenever the length would exceed `m`. -/
def pushMax (m : ℕ) (xs : List ℚ) (v : ℚ) : List ℚ :=
  let ys := xs ++ [v]
  ys.drop (ys.length - m)

/-- `AnomalyDetector._mean_std`, carried in squared form.  The source
returns `(m, math.sqrt(var))` with `var = Σ (x - m)^2 / n` for `n > 1`
(and `0` for `n ≤ 1`); since the square root is irrational we return
`(m, var)` and compare against the standard deviation in squared form
in `zscoreGE`. -/
def mean_var (vals : List ℚ) : ℚ × ℚ :=
  if vals.length = 0 then (0, 0)
  else
    let n : ℚ := (vals.length : ℚ)
    let m := vals.sum / n
    let var := if 1 < vals.length then ((vals.map (fun x => (x - m) ^ 2)).sum) / n else 0
    (m, var)

/-- The source's z-score test
`z = (v - mean)/std if std > 0 else 0.0; z >= thresh`, with
`std = sqrt var`, encoded without square roots:
* `std > 0` iff `var > 0` (the variance is a mean of squares, so `≥ 0`);
* if `var = 0` then `z = 0` and the test is `0 ≥ thresh`;
* if `var > 0` and `thresh ≥ 0`: `(v-m)/√var ≥ thresh` iff
  `v - m ≥ 0` and `(v-m)^2 ≥ thresh^2 * var` (both sides nonnegative,
  squaring is monotone);
* if `var > 0` and `thresh < 0`: true when `v - m ≥ 0` (then `z ≥ 0 >
  thresh`), and for `v - m < 0` both sides are negative, so the
  inequality flips under squaring: `(v-m)^2 ≤ thresh^2 * var`. -/
def zscoreGE (vals : List ℚ) (v thresh : ℚ) : Bool :=
  let mv := mean_var vals
  let d := v - mv.1
  if 0 < mv.2 then
    if 0 ≤ thresh then decide (0 ≤ d ∧ thresh ^ 2 * mv.2 ≤ d ^ 2)
    else decide (0 ≤ d ∨ d ^ 2 ≤ thresh ^ 2 * mv.2)
  else decide (thresh ≤ 0)

/-- `max(5, int(self.s.volume_window * 0.3))`: the minimum number of prior
volume samples before the volume signal may fire.  For a nonnegative
window size, `int(0.3 * w)` is `⌊3w/10⌋`. -/
def minSamples (s : Settings) : ℕ := max 5 (3 * s.volume_window / 10)

/-- `cooldown = self.s.alert_cooldown_min * 60`, in seconds. -/
def cooldownSecs (s : Settings) : ℚ := (s.alert_cooldown_min : ℚ) * 60

/-- The raw volume signal (lines 104–109): forced false when a positive
minimum-volume floor is configured and the candle's volume is below it;
otherwise true iff the pre-update window holds at least `minSamples`
values and the z-score of the candle's volume reaches the threshold. -/
def volRaw (s : Settings) (volumes : List ℚ) (v : ℚ) : Bool :=
  if s.minute_volume_min ≤ 0 ∨ s.minute_volume_min ≤ v then
    decide (minSamples s ≤ volumes.length) && zscoreGE volumes v s.volume_zscore
  else false

/-- The raw price signal (lines 113–118): baseline is the head of the
price window (or the candle's own close if the window is empty); the
signal is computed only once the window holds at least `price_window`
elements, and is true iff the absolute percentage change from the
baseline reaches the threshold (with `pct = 0` when the baseline is 0). -/
def priceRaw (s : Settings) (prices : List ℚ) (c : ℚ) : Bool :=
  let baseline := prices.headD c
  if s.price_window ≤ prices.length then
    let pct := if baseline ≠ 0 then (c - baseline) / baseline * 100 else 0
    decide (s.price_pct_change ≤ |pct|)
  else false

/-- Volume signal after cooldown suppression (lines 124–125). -/
def volGate (s : Settings) (st : DetectorState) (k : Candle) (now : ℚ) : Bool :=
  volRaw s st.volumes k.v && !(decide (now - st.lastVolumeTs < cooldownSecs s))

/-- Price signal after cooldown suppression (lines 126–127). -/
def priceGate (s : Settings) (st : DetectorState) (k : Candle) (now : ℚ) : Bool :=
  priceRaw s st.prices k.c && !(decide (now - st.lastPriceTs < cooldownSecs s))

/-- The body of `AnomalyDetector.check` once past the two early-outs
(non-final candle, duplicate minute bucket): compute both raw signals on
the *pre-update* windows, push the new volume and close, apply cooldown
suppression, merge coincident signals, and stamp `last_alert_ts` only
for the kind actually reported. -/
def checkBody (s : Settings) (st : DetectorState) (k : Candle) (now : ℚ) :
    SignalSet × DetectorState :=
  let volSig := volGate s st k now
  let priceSig := priceGate s st k now
  let merged := volSig && priceSig
  let volSig2 := if merged then false else volSig
  let priceSig2 := if merged then false else priceSig
  let stBase : DetectorState :=
    { volumes := pushMax s.volume_window st.volumes k.v
      prices := pushMax (s.price_window + 1) st.prices k.c
      lastVolumeTs := st.lastVolumeTs
      lastPriceTs := st.lastPriceTs
      lastMergedTs := st.lastMergedTs
      lastMinuteTs := some (k.T / 60000) }
  let stOut : DetectorState :=
    if merged then { stBase with lastMergedTs := now }
    else if volSig2 then { stBase with lastVolumeTs := now }
    else if priceSig2 then { stBase with lastPriceTs := now }
    else stBase
  (⟨volSig2, priceSig2, merged⟩, stOut)

/-- `AnomalyDetector.check`.  The ambient clock read `time.time()` is made
an explicit argument `now`; the method both returns the signal dict and
mutates `self`, modelled as a `SignalSet × DetectorState` pair. -/
def check (s : Settings) (st : DetectorState) (k : Candle) (now : ℚ) :
    SignalSet × DetectorState :=
  if k.x = false then (SignalSet.none, st)
  else if st.lastMinuteTs = some (k.T / 60000) then (SignalSet.none, st)
  else checkBody s st k now

/-- The last `m` elements of a list (what a `deque(maxlen=m)` retains
after the whole list was appended to it). -/
def lastN (m : ℕ) (ys : List ℚ) : List ℚ := ys.drop (ys.length - m)

/-- A final candle closing in minute bucket `i + 1` with close price `c`
(volume fixed at 1, irrelevant to the price window). -/
def candleAt (i : ℕ) (c : ℚ) : Candle := ⟨60000 * ((i : ℤ) + 1), c, 1, true⟩

/-- Feed the detector one final candle per fresh minute bucket, one per
element of the close-price list, threading the state exactly as the
ingestion loop does (the wall clock is held constant: it only feeds the
cooldown logic, not the windows studied here). -/
def runFrom (s : Settings) : DetectorState → ℕ → List ℚ → DetectorState
  | st, _, [] => st
  | st, i, c :: cs => runFrom s (check s st (candleAt i c) 0).2 (i + 1) cs

/-- Run a freshly constructed detector over a list of close prices. -/
def runCloses (s : Settings) (closes : List ℚ) : DetectorState :=
  runFrom s DetectorState.init 0 closes

/-- The backoff discipline of `ws_loop` (lines 194–231), one list entry
per `while True` iteration.  `ok` records whether the connection attempt
succeeded (`backoff = 1.0  # reset on successful connect`); every
iteration ends with `await asyncio.sleep(backoff)` followed by
`backoff = min(backoff * 2, 60.0)`.  Returns the observed wait times. -/
def backoffWaits : ℚ → List Bool → List ℚ
  | _, [] => []
  | b, ok :: rest =>
    let bNow := if ok then 1 else b
    bNow :: backoffWaits (min (bNow * 2) 60) rest

/-- `ws_loop` enters its loop with `backoff = 1.0`. -/
def wsWaits (outcomes : List Bool) : List ℚ := backoffWaits 1 outcomes

/-! ## Helper lemmas about `check` -/

lemma check_eq_body (s : Settings) (st : DetectorState) (k : Candle) (now : ℚ)
    (hx : k.x = true) (hnew : st.lastMinuteTs ≠ some (k.T / 60000)) :
    check s st k now = checkBody s st k now := by
  simp [check, hx, hnew]

/-- Appending to a full bounded deque drops the oldest element: pushing
onto "the last `m` of `ys`" yields "the last `m` of `ys ++ [v]`". -/
lemma pushMax_lastN (m : ℕ) (ys : List ℚ) (v : ℚ) :
    pushMax m (lastN m ys) v = lastN m (ys ++ [v]) := by
  unfold pushMax lastN
  simp only [List.length_append, List.length_drop, List.length_cons, List.length_nil]
  have h1 : ys.drop (ys.length - m) ++ [v] = (ys ++ [v]).drop (ys.length - m) :=
    (List.drop_append_of_le_length (by omega)).symm
  rw [h1, List.drop_drop]
  congr 1
  omega

/-- Whatever is reported, the evaluation pushes the close price. -/
lemma checkBody_prices (s : Settings) (st : DetectorState) (k : Candle) (now : ℚ) :
    (checkBody s st k now).2.prices = pushMax (s.price_window + 1) st.prices k.c := by
  unfold checkBody
  cases hv : volGate s st k now <;> cases hp : priceGate s st k now <;> simp [hv, hp]

/-- Whatever is reported, the evaluation records the minute bucket. -/
lemma checkBody_lastMinute (s : Settings) (st : DetectorState) (k : Candle) (now : ℚ) :
    (checkBody s st k now).2.lastMinuteTs = some (k.T / 60000) := by
  unfold checkBody
  cases hv : volGate s st k now <;> cases hp : priceGate s st k now <;> simp [hv, hp]

lemma candleAt_bucket (i : ℕ) (c : ℚ) : (candleAt i c).T / 60000 = (i : ℤ) + 1 := by
  unfold candleAt
  simp [Int.mul_ediv_cancel_left]

/-- Invariant of the run: the price window always holds exactly the last
`price_window + 1` closes fed so far. -/
lemma runFrom_prices (s : Settings) (cs : List ℚ) :
    ∀ (i : ℕ) (st : DetectorState) (ys : List ℚ),
      st.prices = lastN (s.price_window + 1) ys →
      (st.lastMinuteTs = Option.none ∨ st.lastMinuteTs = some ((i : ℤ))) →
      (runFrom s st i cs).prices = lastN (s.price_window + 1) (ys ++ cs) := by
  induction cs with
  | nil =>
    intro i st ys hp _
    simpa [runFrom] using hp
  | cons c cs ih =>
    intro i st ys hp hm
    have hnew : st.lastMinuteTs ≠ some ((candleAt i c).T / 60000) := by
      rw [candleAt_bucket]
      rcases hm with h | h <;> rw [h] <;> simp
    show (runFrom s (check s st (candleAt i c) 0).2 (i + 1) cs).prices = _
    rw [check_eq_body s st (candleAt i c) 0 rfl hnew]
    have hstep := ih (i + 1) (checkBody s st (candleAt i c) 0).2 (ys ++ [c]) ?hp ?hm
    · rw [hstep]
      simp
    case hp =>
      rw [checkBody_prices, hp]
      exact pushMax_lastN (s.price_window + 1) ys c
    case hm =>
      right
      rw [checkBody_lastMinute, candleAt_bucket]
      simp

/-- After feeding a list of closes, the price window holds its last
`price_window + 1` entries. -/
lemma runCloses_prices (s : Settings) (closes : List ℚ) :
    (runCloses s closes).prices = lastN (s.price_window + 1) closes := by
  have h := runFrom_prices s closes 0 DetectorState.init []
    (by simp [DetectorState.init, lastN]) (Or.inl rfl)
  simpa [runCloses] using h

/-- Every wait produced from a backoff at most the ceiling stays at most
the ceiling. -/
lemma backoffWaits_le (outcomes : List Bool) :
    ∀ b : ℚ, b ≤ 60 → ∀ w ∈ backoffWaits b outcomes, w ≤ 60 := by
  induction outcomes with
  | nil =>
    intro b _ w hw
    simp [backoffWaits] at hw
  | cons ok rest ih =>
    intro b hb w hw
    simp only [backoffWaits, List.mem_cons] at hw
    rcases hw with rfl | hw
    · cases ok <;> simp [hb]
    · exact ih (min ((if ok then 1 else b) * 2) 60) (min_le_right _ _) w hw

/-- If the price signal was gated off, the returned price flag is false. -/
lemma check_price_false (s : Settings) (st : DetectorState) (k : Candle) (now : ℚ)
    (h : priceGate s st k now = false) :
    (check s st k now).1.price = false := by
  unfold check
  split
  · rfl
  split
  · rfl
  · simp [checkBody, h]

/-- If the volume signal was gated off, the returned volume flag is false. -/
lemma check_volume_false (s : Settings) (st : DetectorState) (k : Candle) (now : ℚ)
    (h : volGate s st k now = false) :
    (check s st k now).1.volume = false := by
  unfold check
  split
  · rfl
  split
  · rfl
  · simp [checkBody, h]

/-- A reported volume flag stamps `last_alert_ts["volume"]` with the clock. -/
lemma check_volume_fired_ts (s : Settings) (st : DetectorState) (k : Candle) (now : ℚ)
    (h : (check s st k now).1.volume = true) :
    (check s st k now).2.lastVolumeTs = now := by
  unfold check at h ⊢
  split at h
  · exact absurd h (by simp [SignalSet.none])
  split at h
  · exact absurd h (by simp [SignalSet.none])
  · cases hv : volGate s st k now <;> cases hp : priceGate s st k now <;>
      simp_all [checkBody]

/-- A reported price flag stamps `last_alert_ts["price"]` with the clock. -/
lemma check_price_fired_ts (s : Settings) (st : DetectorState) (k : Candle) (now : ℚ)
    (h : (check s st k now).1.price = true) :
    (check s st k now).2.lastPriceTs = now := by
  unfold check at h ⊢
  split at h
  · exact absurd h (by simp [SignalSet.none])
  split at h
  · exact absurd h (by simp [SignalSet.none])
  · cases hv : volGate s st k now <;> cases hp : priceGate s st k now <;>
      simp_all [checkBody]

/-- Within the cooldown window after `last_alert_ts["volume"]`, the volume
flag cannot be reported. -/
lemma check_volume_suppressed (s : Settings) (st : DetectorState) (k : Candle) (now : ℚ)
    (h : now - st.lastVolumeTs < cooldownSecs s) :
    (check s st k now).1.volume = false := by
  apply check_volume_false
  simp [volGate, h]

/-- Within the cooldown window after `last_alert_ts["price"]`, the price
flag cannot be reported. -/
lemma check_price_suppressed (s : Settings) (st : DetectorState) (k : Candle) (now : ℚ)
    (h : now - st.lastPriceTs < cooldownSecs s) :
    (check s st k now).1.price = false := by
  apply check_price_false
  simp [priceGate, h]

/-! ## Claim theorems -/

/-- C2: evaluating a final candle whose minute bucket equals the
previously recorded one returns the all-false signal set and leaves the
detector state (both windows, all cooldown stamps, the minute marker)
completely unchanged. -/
theorem C2_duplicate_bucket_noop (s : Settings) (st : DetectorState) (k : Candle) (now : ℚ)
    (hx : k.x = true) (hdup : st.lastMinuteTs = some (k.T / 60000)) :
    check s st k now = (SignalSet.none, st) := by
  simp [check, hx, hdup]

theorem C2_duplicate_bucket_noop_witness :
    check ⟨30, 3, 0, 10, 2, 10, 1⟩ ⟨[5, 6], [100], 0, 0, 0, some 1⟩ ⟨60000, 100, 50, true⟩ 0
      = (SignalSet.none, ⟨[5, 6], [100], 0, 0, 0, some 1⟩) :=
  C2_duplicate_bucket_noop ⟨30, 3, 0, 10, 2, 10, 1⟩ ⟨[5, 6], [100], 0, 0, 0, some 1⟩
    ⟨60000, 100, 50, true⟩ 0 rfl (by decide)

/-- C3: every signal set returned by `check` has at most one of the
three flags `volume`, `price`, `merged` set; in particular a merged
signal excludes the two individual ones. -/
theorem C3_signals_mutually_exclusive (s : Settings) (st : DetectorState) (k : Candle)
    (now : ℚ) : ((check s st k now).1).countTrue ≤ 1 := by
  unfold check
  split
  · simp [SignalSet.none, SignalSet.countTrue]
  split
  · simp [SignalSet.none, SignalSet.countTrue]
  · cases hv : volGate s st k now <;> cases hp : priceGate s st k now <;>
      simp [checkBody, SignalSet.countTrue, hv, hp]

/-- C4: when the candle is evaluated (final, fresh minute bucket), both
raw signals are true, and neither is inside its cooldown window, the
result is exactly `{volume := false, price := false, merged := true}`. -/
theorem C4_coincident_signals_merge (s : Settings) (st : DetectorState) (k : Candle) (now : ℚ)
    (hx : k.x = true) (hnew : st.lastMinuteTs ≠ some (k.T / 60000))
    (hvol : volRaw s st.volumes k.v = true) (hprice : priceRaw s st.prices k.c = true)
    (hvcool : ¬ now - st.lastVolumeTs < cooldownSecs s)
    (hpcool : ¬ now - st.lastPriceTs < cooldownSecs s) :
    (check s st k now).1 = ⟨false, false, true⟩ := by
  have hv : volGate s st k now = true := by simp [volGate, hvol, hvcool]
  have hp : priceGate s st k now = true := by simp [priceGate, hprice, hpcool]
  rw [check_eq_body s st k now hx hnew]
  simp [checkBody, hv, hp]

theorem C4_coincident_signals_merge_witness :
    (check ⟨10, 2, 0, 2, 2, 10, 1⟩ ⟨[1, 1, 1, 1, 2], [100, 100], 0, 0, 0, Option.none⟩
      ⟨60000, 200, 1000, true⟩ 10000).1 = ⟨false, false, true⟩ :=
  C4_coincident_signals_merge ⟨10, 2, 0, 2, 2, 10, 1⟩
    ⟨[1, 1, 1, 1, 2], [100, 100], 0, 0, 0, Option.none⟩ ⟨60000, 200, 1000, true⟩ 10000
    rfl (by decide) (by norm_num [volRaw, minSamples, zscoreGE, mean_var])
    (by norm_num [priceRaw]) (by norm_num [cooldownSecs]) (by norm_num [cooldownSecs])

/-- C6: while the price window holds fewer than `price_window` samples,
the price flag of the result is always false. -/
theorem C6_price_needs_full_window (s : Settings) (st : DetectorState) (k : Candle) (now : ℚ)
    (hlen : st.prices.length < s.price_window) :
    (check s st k now).1.price = false := by
  apply check_price_false
  simp [priceGate, priceRaw, Nat.not_le.mpr hlen]

theorem C6_price_needs_full_window_witness :
    (check ⟨30, 3, 0, 10, 2, 10, 1⟩ ⟨[], [101, 200], 0, 0, 0, Option.none⟩
      ⟨60000, 400, 50, true⟩ 10000).1.price = false :=
  C6_price_needs_full_window ⟨30, 3, 0, 10, 2, 10, 1⟩ ⟨[], [101, 200], 0, 0, 0, Option.none⟩
    ⟨60000, 400, 50, true⟩ 10000 (by decide)

/-- C7: while the volume window holds fewer than
`max(5, floor(0.3 * volume_window))` samples, the volume flag of the
result is always false, however extreme the candle's volume. -/
theorem C7_volume_needs_min_samples (s : Settings) (st : DetectorState) (k : Candle) (now : ℚ)
    (hlen : st.volumes.length < minSamples s) :
    (check s st k now).1.volume = false := by
  apply check_volume_false
  have hraw : volRaw s st.volumes k.v = false := by
    unfold volRaw
    split
    · simp [Nat.not_le.mpr hlen]
    · rfl
  simp [volGate, hraw]

theorem C7_volume_needs_min_samples_witness :
    (check ⟨30, 3, 0, 10, 2, 10, 1⟩ ⟨[1, 1, 1, 1], [], 0, 0, 0, Option.none⟩
      ⟨60000, 100, 1000000, true⟩ 10000).1.volume = false :=
  C7_volume_needs_min_samples ⟨30, 3, 0, 10, 2, 10, 1⟩ ⟨[1, 1, 1, 1], [], 0, 0, 0, Option.none⟩
    ⟨60000, 100, 1000000, true⟩ 10000 (by decide)

/-- C8: on a fresh-minute final candle whose volume lies below a
configured positive minimum-volume floor, the volume flag is false, yet
the candle's volume is still appended to the volume window and its close
to the price window, exactly as on a normal evaluation. -/
theorem C8_below_floor_still_updates (s : Settings) (st : DetectorState) (k : Candle) (now : ℚ)
    (hx : k.x = true) (hnew : st.lastMinuteTs ≠ some (k.T / 60000))
    (hmin : 0 < s.minute_volume_min) (hv : k.v < s.minute_volume_min) :
    (check s st k now).1.volume = false ∧
    (check s st k now).2.volumes = pushMax s.volume_window st.volumes k.v ∧
    (check s st k now).2.prices = pushMax (s.price_window + 1) st.prices k.c := by
  have hraw : volRaw s st.volumes k.v = false := by
    have hcond : ¬ (s.minute_volume_min ≤ 0 ∨ s.minute_volume_min ≤ k.v) := by
      push_neg
      exact ⟨hmin, hv⟩
    simp [volRaw, hcond]
  have hg : volGate s st k now = false := by simp [volGate, hraw]
  rw [check_eq_body s st k now hx hnew]
  cases hp : priceGate s st k now <;> simp [checkBody, hg, hp]

/-- C1 (amended): after a reported `volume` or `price` signal, any
re-evaluation strictly within `cooldownMinutes*60` seconds yields a
signal set with that same kind false, and once the cooldown has elapsed
the kind may fire again (second conjunct: concrete runs in which each
kind fires exactly `cooldownMinutes*60` seconds after its report); the
`merged` kind is exempt, since `last_alert_ts["merged"]` is recorded but
never consulted by the cooldown test. -/
theorem C1_cooldown_suppresses_volume_and_price (s : Settings) (st : DetectorState)
    (k k' : Candle) (now now' : ℚ) (hcd : now' - now < cooldownSecs s) :
    (((check s st k now).1.volume = true →
      (check s (check s st k now).2 k' now').1.volume = false) ∧
     ((check s st k now).1.price = true →
      (check s (check s st k now).2 k' now').1.price = false)) ∧
    (cooldownSecs ⟨5, 0, 0, 10, 2, 10, 1⟩ ≤ (10600 : ℚ) - 10000 ∧
     (check ⟨5, 0, 0, 10, 2, 10, 1⟩ ⟨[7, 7, 7, 7, 7], [1], 10000, 0, 0, some 1⟩
        ⟨120000, 1, 7, true⟩ 10600).1.volume = true ∧
     (check ⟨30, 3, 0, 1, 1, 10, 1⟩ ⟨[], [10], 0, 10000, 0, some 1⟩
        ⟨120000, 20, 1, true⟩ 10600).1.price = true) := by
  refine ⟨⟨?_, ?_⟩, by norm_num [cooldownSecs], ?_, ?_⟩
  · intro h
    apply check_volume_suppressed
    rw [check_volume_fired_ts s st k now h]
    exact hcd
  · intro h
    apply check_price_suppressed
    rw [check_price_fired_ts s st k now h]
    exact hcd
  · norm_num [check, checkBody, volGate, priceGate, volRaw, priceRaw, zscoreGE, mean_var,
      minSamples, cooldownSecs, pushMax] <;> decide
  · norm_num [check, checkBody, volGate, priceGate, volRaw, priceRaw, zscoreGE, mean_var,
      minSamples, cooldownSecs, pushMax] <;> decide

theorem C1_cooldown_suppresses_volume_and_price_witness :
    (((check ⟨30, 3, 0, 10, 2, 10, 1⟩ DetectorState.init ⟨60000, 100, 50, true⟩ 10000).1.volume
        = true →
      (check ⟨30, 3, 0, 10, 2, 10, 1⟩
        (check ⟨30, 3, 0, 10, 2, 10, 1⟩ DetectorState.init ⟨60000, 100, 50, true⟩ 10000).2
        ⟨120000, 100, 50, true⟩ 10001).1.volume = false) ∧
     ((check ⟨30, 3, 0, 10, 2, 10, 1⟩ DetectorState.init ⟨60000, 100, 50, true⟩ 10000).1.price
        = true →
      (check ⟨30, 3, 0, 10, 2, 10, 1⟩
        (check ⟨30, 3, 0, 10, 2, 10, 1⟩ DetectorState.init ⟨60000, 100, 50, true⟩ 10000).2
        ⟨120000, 100, 50, true⟩ 10001).1.price = false)) ∧
    (cooldownSecs ⟨5, 0, 0, 10, 2, 10, 1⟩ ≤ (10600 : ℚ) - 10000 ∧
     (check ⟨5, 0, 0, 10, 2, 10, 1⟩ ⟨[7, 7, 7, 7, 7], [1], 10000, 0, 0, some 1⟩
        ⟨120000, 1, 7, true⟩ 10600).1.volume = true ∧
     (check ⟨30, 3, 0, 1, 1, 10, 1⟩ ⟨[], [10], 0, 10000, 0, some 1⟩
        ⟨120000, 20, 1, true⟩ 10600).1.price = true) :=
  C1_cooldown_suppresses_volume_and_price ⟨30, 3, 0, 10, 2, 10, 1⟩ DetectorState.init
    ⟨60000, 100, 50, true⟩ ⟨120000, 100, 50, true⟩ 10000 10001
    (by norm_num [cooldownSecs])

/-- C1 counterexample: a reported `merged` signal is *not* suppressed.
With windows primed so that both raw signals fire, the same anomalous
close/volume pair on the next minute bucket, one second after a merged
report (cooldown 600 s), reports `merged` again. -/
theorem C1_merged_not_suppressed_counterexample :
    (check ⟨10, 2, 0, 2, 2, 10, 1⟩ ⟨[1, 1, 1, 1, 2], [100, 100], 0, 0, 0, Option.none⟩
        ⟨60000, 200, 1000, true⟩ 10000).1.merged = true ∧
    ((10001 : ℚ) - 10000 < cooldownSecs ⟨10, 2, 0, 2, 2, 10, 1⟩) ∧
    (check ⟨10, 2, 0, 2, 2, 10, 1⟩
        (check ⟨10, 2, 0, 2, 2, 10, 1⟩ ⟨[1, 1, 1, 1, 2], [100, 100], 0, 0, 0, Option.none⟩
          ⟨60000, 200, 1000, true⟩ 10000).2
        ⟨120000, 200, 1000, true⟩ 10001).1.merged = true := by
  have h1 : check ⟨10, 2, 0, 2, 2, 10, 1⟩ ⟨[1, 1, 1, 1, 2], [100, 100], 0, 0, 0, Option.none⟩
      ⟨60000, 200, 1000, true⟩ 10000
      = (⟨false, false, true⟩, ⟨[1, 1, 1, 1, 2, 1000], [100, 100, 200], 0, 0, 10000, some 1⟩) := by
    norm_num [check, checkBody, volGate, priceGate, volRaw, priceRaw, zscoreGE, mean_var,
      minSamples, cooldownSecs, pushMax] <;> decide
  have h2 : check ⟨10, 2, 0, 2, 2, 10, 1⟩
      ⟨[1, 1, 1, 1, 2, 1000], [100, 100, 200], 0, 0, 10000, some 1⟩
      ⟨120000, 200, 1000, true⟩ 10001
      = (⟨false, false, true⟩,
         ⟨[1, 1, 1, 1, 2, 1000, 1000], [100, 200, 200], 0, 0, 10001, some 2⟩) := by
    norm_num [check, checkBody, volGate, priceGate, volRaw, priceRaw, zscoreGE, mean_var,
      minSamples, cooldownSecs, pushMax] <;> decide
  refine ⟨by rw [h1], by norm_num [cooldownSecs], by rw [h1, h2]⟩

/-- The population variance of a window whose elements are all equal is 0. -/
lemma mean_var_const (xs : List ℚ) (v : ℚ) (hall : ∀ x ∈ xs, x = v) :
    (mean_var xs).2 = 0 := by
  unfold mean_var
  split
  · rfl
  · rename_i h0
    have hn : (xs.length : ℚ) ≠ 0 := by simpa using h0
    have hmean : xs.sum / (xs.length : ℚ) = v := by
      rw [List.sum_eq_card_nsmul xs v hall, nsmul_eq_mul]
      field_simp
    simp only
    split
    · rw [hmean]
      have hz : (xs.map fun x => (x - v) ^ 2).sum = 0 := by
        apply List.sum_eq_zero
        intro y hy
        obtain ⟨a, ha, rfl⟩ := List.mem_map.mp hy
        rw [hall a ha]
        ring
      rw [hz, zero_div]
    · rfl

/-- On an all-equal window the z-score test fails for any positive
threshold: the standard deviation is 0, so `z` is defined to be 0. -/
lemma zscoreGE_const_false (xs : List ℚ) (v thresh : ℚ) (hall : ∀ x ∈ xs, x = v)
    (hthr : 0 < thresh) : zscoreGE xs v thresh = false := by
  simp only [zscoreGE]
  rw [mean_var_const xs v hall]
  simp [hthr.not_le]

/-- C9 (amended): with the volume window at capacity and all-identical
values `v`, a fresh-minute final candle with volume `v` yields
`volume = false` for every *positive* configured z-score threshold
(the degenerate z = 0 still passes a threshold ≤ 0). -/
theorem C9_zero_variance_no_signal (s : Settings) (st : DetectorState) (k : Candle)
    (now : ℚ) (v : ℚ) (hx : k.x = true) (hnew : st.lastMinuteTs ≠ some (k.T / 60000))
    (hcap : st.volumes.length = s.volume_window)
    (hthr : 0 < s.volume_zscore) (hall : ∀ x ∈ st.volumes, x = v) (hv : k.v = v) :
    (check s st k now).1.volume = false := by
  apply check_volume_false
  have hz : zscoreGE st.volumes k.v s.volume_zscore = false := by
    rw [hv]
    exact zscoreGE_const_false st.volumes v s.volume_zscore hall hthr
  have hraw : volRaw s st.volumes k.v = false := by
    unfold volRaw
    split
    · simp [hz]
    · rfl
  simp [volGate, hraw]

theorem C9_zero_variance_no_signal_witness :
    (check ⟨5, 3, 0, 10, 2, 10, 1⟩ ⟨[7, 7, 7, 7, 7], [], 0, 0, 0, Option.none⟩
      ⟨60000, 1, 7, true⟩ 10000).1.volume = false :=
  C9_zero_variance_no_signal ⟨5, 3, 0, 10, 2, 10, 1⟩
    ⟨[7, 7, 7, 7, 7], [], 0, 0, 0, Option.none⟩ ⟨60000, 1, 7, true⟩ 10000 7
    rfl (by decide) rfl (by norm_num) (by decide) rfl

/-- C9 counterexample: with a configured threshold of 0 (not excluded by
the claim's "regardless of the configured z-score threshold"), the
all-equal full window still reports `volume = true`, since `z = 0 ≥ 0`. -/
theorem C9_nonpositive_threshold_counterexample :
    (check ⟨5, 0, 0, 10, 2, 10, 1⟩ ⟨[7, 7, 7, 7, 7], [], 0, 0, 0, Option.none⟩
      ⟨60000, 1, 7, true⟩ 10000).1.volume = true := by
  norm_num [check, checkBody, volGate, priceGate, volRaw, priceRaw, zscoreGE, mean_var,
    minSamples, cooldownSecs, pushMax] <;> decide

theorem C8_below_floor_still_updates_witness :
    (check ⟨30, 3, 50, 10, 2, 10, 1⟩ ⟨[1, 2], [100], 0, 0, 0, Option.none⟩
      ⟨60000, 100, 10, true⟩ 10000).1.volume = false ∧
    (check ⟨30, 3, 50, 10, 2, 10, 1⟩ ⟨[1, 2], [100], 0, 0, 0, Option.none⟩
      ⟨60000, 100, 10, true⟩ 10000).2.volumes = pushMax 30 [1, 2] 10 ∧
    (check ⟨30, 3, 50, 10, 2, 10, 1⟩ ⟨[1, 2], [100], 0, 0, 0, Option.none⟩
      ⟨60000, 100, 10, true⟩ 10000).2.prices = pushMax 11 [100] 100 :=
  C8_below_floor_still_updates ⟨30, 3, 50, 10, 2, 10, 1⟩ ⟨[1, 2], [100], 0, 0, 0, Option.none⟩
    ⟨60000, 100, 10, true⟩ 10000 rfl (by decide) (by decide) (by decide)

/-- C5 (amended): the price deque is built with capacity
`price_window + 1`, so after at least `price_window + 1` distinct-minute
final candles it retains exactly the last `price_window + 1` closes, and
the baseline for the *next* evaluation (the head of the window) is the
close from exactly `price_window + 1` evaluations earlier — not
`price_window`. -/
theorem C5_baseline_lag (s : Settings) (closes : List ℚ)
    (h : s.price_window + 1 ≤ closes.length) :
    (runCloses s closes).prices
        = closes.drop (closes.length - (s.price_window + 1)) ∧
    (runCloses s closes).prices.head?
        = closes[closes.length - (s.price_window + 1)]? := by
  have hp := runCloses_prices s closes
  refine ⟨hp, ?_⟩
  rw [hp]
  unfold lastN
  exact List.head?_drop closes (closes.length - (s.price_window + 1))

theorem C5_baseline_lag_witness :
    (runCloses ⟨30, 3, 0, 2, 1, 0, 1⟩ [10, 20, 30, 40]).prices
        = List.drop (4 - 3) [10, 20, 30, 40] ∧
    (runCloses ⟨30, 3, 0, 2, 1, 0, 1⟩ [10, 20, 30, 40]).prices.head?
        = ([10, 20, 30, 40] : List ℚ)[4 - 3]? := by
  have h := C5_baseline_lag ⟨30, 3, 0, 2, 1, 0, 1⟩ [10, 20, 30, 40] (by norm_num)
  simpa using h

/-- C5 counterexample: with `price_window = 2` and the three closes
`[10, 20, 30]` already evaluated, the baseline for the next evaluation
is `10` — the close from three (= `price_window + 1`) evaluations
earlier — not `20`, the close from two (= `price_window`) evaluations
earlier that the claim predicts. -/
theorem C5_baseline_lag_counterexample :
    (runCloses ⟨30, 3, 0, 2, 1, 0, 1⟩ [10, 20, 30]).prices.head? = some 10 ∧
    (10 : ℚ) ≠ 20 := by
  constructor
  · rw [runCloses_prices]
    decide
  · norm_num

/-- C10: the reconnect backoff starts at 1 s, each iteration sleeps the
current backoff and then doubles it with a 60 s cap, and any successful
connection resets it to 1 s; hence three consecutive failures from a
fresh start wait 1 s, 2 s, 4 s, and no wait ever exceeds 60 s. -/
theorem C10_backoff_discipline (outcomes : List Bool) (b : ℚ) (rest : List Bool)
    (w : ℚ) (hw : w ∈ wsWaits outcomes) :
    wsWaits [false, false, false] = [1, 2, 4] ∧
    (backoffWaits b (true :: rest)).head? = some 1 ∧
    w ≤ 60 := by
  refine ⟨?_, ?_, backoffWaits_le outcomes 1 (by norm_num) w hw⟩
  · norm_num [wsWaits, backoffWaits, min_def]
  · simp [backoffWaits]

theorem C10_backoff_discipline_witness :
    wsWaits [false, false, false] = [1, 2, 4] ∧
    (backoffWaits 32 [true, false]).head? = some 1 ∧
    (1 : ℚ) ≤ 60 :=
  C10_backoff_discipline [false] 32 [false] 1 (by simp [wsWaits, backoffWaits])

end SolBot
